import Mathlib

/-!
Verification of the ScoutLog map-annotation app (src/js/models/Log.js,
Route.js, Spot.js) against its natural-language specification.

JavaScript numbers are modelled as real numbers `ℝ`; timestamps
(millisecond counts from `Date.now()`) as `ℕ`; JS `Map` objects as
association lists keyed by `String`.  DOM mutation, Leaflet rendering and
`localStorage` writes are external effects outside the model; only the
state they carry for the verified claims (layer styles, animation handles,
form/dialog intent) is kept.
-/

namespace ScoutLog

/-- A coordinate pair `[lat, lng]` in decimal degrees. -/
abbrev Point : Type := ℝ × ℝ

/-- Real-number model of JavaScript `Math.atan2(y, x)` (quadrant-correct
arctangent; `atan2(0, 0) = 0` as in JS). -/
noncomputable def jsAtan2 (y x : ℝ) : ℝ :=
  if 0 < x then Real.arctan (y / x)
  else if x < 0 then
    (if 0 ≤ y then Real.arctan (y / x) + Real.pi
     else Real.arctan (y / x) - Real.pi)
  else
    (if 0 < y then Real.pi / 2
     else if y < 0 then -(Real.pi / 2)
     else 0)

/-- The haversine intermediate `a` computed by `App.#haversineDistance`
(Log.js lines 656-665): `sin²(dLat/2) + cos(lat1)·cos(lat2)·sin²(dLon/2)`
with angles converted from degrees to radians. -/
noncomputable def havA (coord1 coord2 : Point) : ℝ :=
  let dLat := (coord2.1 - coord1.1) * Real.pi / 180
  let dLon := (coord2.2 - coord1.2) * Real.pi / 180
  Real.sin (dLat / 2) ^ 2 +
    Real.cos (coord1.1 * Real.pi / 180) * Real.cos (coord2.1 * Real.pi / 180) *
      Real.sin (dLon / 2) ^ 2

/-- `App.#haversineDistance` (Log.js lines 656-668): haversine great-circle
distance in km, Earth radius `R = 6371`, final step
`R * 2 * atan2(sqrt a, sqrt (1 - a))`.  The source computes `a` inline;
it is factored out here as `havA` (same expression). -/
noncomputable def haversineDistance (coord1 coord2 : Point) : ℝ :=
  6371 * 2 * jsAtan2 (Real.sqrt (havA coord1 coord2))
    (Real.sqrt (1 - havA coord1 coord2))

/-- Modelled from the spec: the spec (§4.1) describes the haversine with the
intermediate `a` clamped into `[0, 1]` before the final `sqrt`/`atan2` step.
The source has no explicit clamp; this variant follows the spec's words and
is compared with `haversineDistance` from the source. -/
noncomputable def haversineDistanceClampedSpec (coord1 coord2 : Point) : ℝ :=
  let a := max 0 (min 1 (havA coord1 coord2))
  6371 * 2 * jsAtan2 (Real.sqrt a) (Real.sqrt (1 - a))

/-- `App.#calculateTotalDistance` (Log.js lines 644-650): sum of
`haversineDistance` over consecutive pairs of `points`.  The JS loop
accumulates left to right; the recursion below reassociates the same real
sum. -/
noncomputable def calculateTotalDistance : List Point → ℝ
  | [] => 0
  | [_] => 0
  | a :: b :: rest => haversineDistance a b + calculateTotalDistance (b :: rest)

/-! ## Entry model (Log.js lines 6-72, Route.js, Spot.js) -/

/-- The id generated by the `Log` constructor (Log.js line 16):
`(Date.now() + '').slice(-10)` — the last 10 characters of the decimal
millisecond timestamp (the whole string when shorter). -/
def idOfMillis (now : ℕ) : String :=
  let s := Nat.repr now
  s.drop (s.length - 10)

/-- A `Route` instance (Route.js).  `id`/`dateMs` come from the `Log` base
constructor; `dateMs` models the `Date` as its millisecond timestamp (the
serialized ISO-8601 form carries exactly millisecond precision, so
(de)serialization is the identity on it).  The stored `#pace` field is
determined by `distance`/`duration` at construction and those never change,
so it is exposed as the derived `Route.pace` below. -/
structure Route where
  id : String
  dateMs : ℕ
  coords : List Point
  title : String
  distance : ℝ
  duration : ℝ
  notes : String


/-- A `Spot` instance (Spot.js). -/
structure Spot where
  id : String
  dateMs : ℕ
  coords : Point
  title : String
  description : String


/-- The `Route` constructor (Route.js lines 24-37) invoked at time `now`:
the `Log` base sets `date`/`id` from the clock, then the variant fields are
stored.  JS defaults (`title = 'Untitled Route'`, `duration = 0`,
`notes = ''`) are filled at call sites. -/
def mkRoute (now : ℕ) (coordsArray : List Point) (distance : ℝ)
    (title : String) (duration : ℝ) (notes : String) : Route :=
  { id := idOfMillis now, dateMs := now, coords := coordsArray,
    title := title, distance := distance, duration := duration,
    notes := notes }

/-- The `Spot` constructor (Spot.js lines 19-23) invoked at time `now`. -/
def mkSpot (now : ℕ) (coords : Point) (title : String)
    (description : String) : Spot :=
  { id := idOfMillis now, dateMs := now, coords := coords,
    title := title, description := description }

open Classical in
/-- `Route.#calcPace` (Route.js lines 42-45): `0` when `#distance === 0` or
`#duration === 0`, otherwise `#duration / #distance`. -/
noncomputable def Route.pace (r : Route) : ℝ :=
  if r.distance = 0 ∨ r.duration = 0 then 0 else r.duration / r.distance

/-- The plain record produced by `Route.toJSON` (Route.js lines 86-95
spread over `Log.toJSON`, Log.js lines 56-62); the `type` discriminant is
carried by the `StoredRec` wrapper below. -/
structure RouteJSON where
  id : String
  dateMs : ℕ
  coords : List Point
  title : String
  distance : ℝ
  duration : ℝ
  notes : String


/-- The plain record produced by `Spot.toJSON` (Spot.js lines 37-44). -/
structure SpotJSON where
  id : String
  dateMs : ℕ
  coords : Point
  title : String
  description : String


/-- `Route.toJSON`. -/
def Route.toJSON (r : Route) : RouteJSON :=
  { id := r.id, dateMs := r.dateMs, coords := r.coords, title := r.title,
    distance := r.distance, duration := r.duration, notes := r.notes }

/-- `Spot.toJSON`. -/
def Spot.toJSON (s : Spot) : SpotJSON :=
  { id := s.id, dateMs := s.dateMs, coords := s.coords, title := s.title,
    description := s.description }

/-- `Route.fromJSON` (Route.js lines 100-110): construct via the
constructor (which generates a fresh id/date from the clock `now`), then
`Log._restoreFromJSON` (Log.js lines 67-71) overwrites `id`, `date` and
`coords` from the record. -/
def Route.fromJSON (now : ℕ) (data : RouteJSON) : Route :=
  let route := mkRoute now data.coords data.distance data.title
    data.duration data.notes
  { route with id := data.id, dateMs := data.dateMs, coords := data.coords }

/-- `Spot.fromJSON` (Spot.js lines 49-53). -/
def Spot.fromJSON (now : ℕ) (data : SpotJSON) : Spot :=
  let spot := mkSpot now data.coords data.title data.description
  { spot with id := data.id, dateMs := data.dateMs, coords := data.coords }

/-- The tagged union of persisted entry kinds (`log.type` is `'route'` or
`'spot'`). -/
inductive LogEntry where
  | route (r : Route)
  | spot (s : Spot)


/-- `log.id` (from the `Log` base class). -/
def LogEntry.id : LogEntry → String
  | .route r => r.id
  | .spot s => s.id

/-! ## Persistence (Log.js lines 1169-1189, `App.#loadFromLocalStorage`) -/

/-- One element of the parsed top-level JSON array.  An object whose
`type` is `'route'`/`'spot'` deserializes; an object with any other (or
missing) `type` maps to `null` and is filtered out; a JSON `null` in the
array makes the property access `obj.type` throw a `TypeError`. -/
inductive StoredRec where
  | routeRec (data : RouteJSON)
  | spotRec (data : SpotJSON)
  | unknownType (t : Option String)
  | nullRec


/-- Whether reading `.type` on this record throws (true only for `null`). -/
def StoredRec.throwsOnTypeAccess : StoredRec → Bool
  | .nullRec => true
  | _ => false

/-- The stored value under the `'scoutlog-logs'` key: absent, a value on
which `JSON.parse` or `.map` throws (non-array or unparseable), or a
parsed array of records. -/
inductive Stored where
  | absent
  | malformedTopLevel
  | records (l : List StoredRec)

/-- One step of the `.map` callback (Log.js lines 1176-1183): dispatch on
`obj.type`, produce `null` for unrecognized types; reading `.type` of a
`null` array element throws (modelled as `Except.error`).  `fromJSON` runs
at clock time 0; its result is independent of the clock (the restore step
overwrites id and date). -/
def deserializeRec : StoredRec → Except Unit (Option LogEntry)
  | .routeRec d => .ok (some (.route (Route.fromJSON 0 d)))
  | .spotRec d => .ok (some (.spot (Spot.fromJSON 0 d)))
  | .unknownType _ => .ok none
  | .nullRec => .error ()

/-- `logsData.map(...)` (Log.js lines 1175-1183): the callback runs left to
right; the first element on which it throws aborts the whole `.map`. -/
def mapDeserialize : List StoredRec → Except Unit (List (Option LogEntry))
  | [] => .ok []
  | r :: t =>
    match deserializeRec r with
    | .error e => .error e
    | .ok o =>
      match mapDeserialize t with
      | .error e => .error e
      | .ok os => .ok (o :: os)

/-- `App.#loadFromLocalStorage`: missing key leaves the initial empty
`#logs`; any exception inside the `try` (top-level parse failure or a
throwing record inside `.map`) is caught and sets `#logs = []`; otherwise
the `null` results are dropped by `.filter(Boolean)`. -/
def loadLogs : Stored → List LogEntry
  | .absent => []
  | .malformedTopLevel => []
  | .records l =>
    match mapDeserialize l with
    | .error _ => []
    | .ok objs => objs.filterMap id

/-- Modelled from the spec (§6/§7): "deserialize each, silently drop
unparseable records ... never abort the whole load" — each record is
deserialized independently and only the failing ones are dropped.
Compared with `loadLogs` from the source. -/
def specLoadRecords (l : List StoredRec) : List LogEntry :=
  l.filterMap fun r =>
    match deserializeRec r with
    | .ok (some e) => some e
    | _ => none

/-- The `Option LogEntry` a non-throwing record maps to in the load loop. -/
def deserializeOk (r : StoredRec) : Option LogEntry :=
  match deserializeRec r with
  | .ok o => o
  | .error _ => none

/-- A sample persisted array containing a spot record, a record with an
unrecognized type, and a route record (none of them throwing). -/
noncomputable def sampleStoredRecords : List StoredRec :=
  [StoredRec.spotRec ⟨"1", 0, ((0 : ℝ), (0 : ℝ)), "t", ""⟩,
   StoredRec.unknownType (some "waypoint"),
   StoredRec.routeRec ⟨"2", 0, [], "r", 1, 2, ""⟩]

/-! ## App state (Log.js `App` class fields, lines 81-137)

`L.Map`, tooltips, buttons, dialogs and other DOM nodes are external; the
fields kept are exactly the JS instance fields that hold program state the
claims are about.  Leaflet layers are modelled by the data the app ever
reads or writes on them: the latlngs of the in-progress polyline, the
style of a drawn layer, and the latlngs of an animation overlay. -/

/-- `this.#mode` (Log.js line 87): `'none' | 'route' | 'spot'`. -/
inductive Mode where
  | none
  | route
  | spot
deriving DecidableEq

/-- The `type` discriminant of the form being opened (`#openForm(type)`). -/
inductive LogKind where
  | route
  | spot
deriving DecidableEq

/-- Style options passed to `setStyle` on drawn route polylines. -/
structure Style where
  color : String
  weight : ℕ
  opacity : ℝ

/-- A drawn map layer (`#drawnLayers` values): a route polyline carrying a
mutable style, or a spot marker (`marker.setStyle` does not exist, and the
guards `layer && layer.setStyle` skip markers). -/
inductive Layer where
  | polyline (style : Style)
  | marker

/-- `layer.setStyle(s)` under the source's `layer.setStyle` guard: updates
a polyline's style, leaves a marker unchanged. -/
def Layer.setStyle : Layer → Style → Layer
  | .polyline _, s => .polyline s
  | .marker, _ => .marker

/-- Association-list model of a JS `Map.get`. -/
def alookup {α : Type} (l : List (String × α)) (k : String) : Option α :=
  (l.find? (fun p => p.1 == k)).map (fun p => p.2)

/-- Association-list model of a JS `Map.set` (replace in place, else
append). -/
def aset {α : Type} (l : List (String × α)) (k : String) (v : α) :
    List (String × α) :=
  if (l.find? (fun p => p.1 == k)).isSome then
    l.map (fun p => if p.1 == k then (k, v) else p)
  else l ++ [(k, v)]

/-- Association-list model of a JS `Map.delete`. -/
def aremove {α : Type} (l : List (String × α)) (k : String) :
    List (String × α) :=
  l.filter (fun p => !(p.1 == k))

/-- The mutable `App` state. -/
structure AppState where
  mode : Mode
  isDrawing : Bool
  routePoints : List Point
  currentPolyline : Option (List Point)
  vertexMarkers : List Point
  currentDistance : ℝ
  logs : List LogEntry
  drawnLayers : List (String × Layer)
  activeAnimations : List (String × ℕ)
  animationLayers : List (String × List Point)
  selectedRouteId : Option String
  pendingDeleteId : Option String
  formOpenFor : Option LogKind
  nextFrameId : ℕ

/-- The `App` field initializers (Log.js lines 87-132): no mode, nothing
drawn, no logs, empty side tables.  `nextFrameId` models the browser's
`requestAnimationFrame` handle counter (handles are nonzero). -/
noncomputable def initialState : AppState :=
  { mode := Mode.none, isDrawing := false, routePoints := [],
    currentPolyline := Option.none, vertexMarkers := [],
    currentDistance := 0, logs := [], drawnLayers := [],
    activeAnimations := [], animationLayers := [],
    selectedRouteId := Option.none, pendingDeleteId := Option.none,
    formOpenFor := Option.none, nextFrameId := 1 }

/-- `App.#clearDrawingState` (Log.js lines 616-632): removes the temporary
polyline and vertex markers, resets points and distance (the tooltip CSS
class is DOM-only). -/
def clearDrawingState (st : AppState) : AppState :=
  { st with
    currentPolyline := Option.none,
    vertexMarkers := [],
    routePoints := [],
    currentDistance := 0 }

/-- `App.#setMode` (Log.js lines 389-401): selecting the mode that is
already active toggles it off and clears the drawing state; otherwise the
mode switches and drawing turns on (`#updateModeUI` is DOM-only). -/
def setMode (mode : Mode) (st : AppState) : AppState :=
  if st.mode = mode then
    clearDrawingState { st with mode := Mode.none, isDrawing := false }
  else
    { st with mode := mode, isDrawing := true }

/-- `App.#openForm` (Log.js lines 673-699): records which entry kind the
modal form was opened for (all other effects are DOM-only). -/
def openForm (kind : LogKind) (st : AppState) : AppState :=
  { st with formOpenFor := some kind }

/-- `App.#addRoutePoint` (Log.js lines 541-572): push the point and a
vertex marker; once at least 2 points exist, set (or create) the polyline
latlngs and recompute `#currentDistance` from scratch. -/
noncomputable def addRoutePoint (point : Point) (st : AppState) : AppState :=
  let pts := st.routePoints ++ [point]
  let st1 := { st with
    routePoints := pts,
    vertexMarkers := st.vertexMarkers ++ [point] }
  if 2 ≤ pts.length then
    { st1 with
      currentPolyline := some pts,
      currentDistance := calculateTotalDistance pts }
  else st1

/-- `App.#finishRoute` (Log.js lines 591-601): guard `length < 2` returns
with no effect; otherwise drawing stops and the route form opens. -/
def finishRoute (st : AppState) : AppState :=
  if st.routePoints.length < 2 then st
  else openForm LogKind.route { st with isDrawing := false, mode := Mode.none }

/-- `App.#closeLoop` (Log.js lines 467-481): append a copy of
`#routePoints[0]`, update the polyline latlngs (the source calls
`setLatLngs` on the existing polyline, which exists whenever two points
have been clicked), recompute the distance, then finish the route. -/
noncomputable def closeLoop (st : AppState) : AppState :=
  let startPoint := st.routePoints.headI
  let pts := st.routePoints ++ [startPoint]
  finishRoute { st with
    routePoints := pts,
    currentPolyline := (st.currentPolyline).map (fun _ => pts),
    currentDistance := calculateTotalDistance pts }

/-- `App.#addSpot` (Log.js lines 577-586): drop out of drawing mode, stash
the single point, open the spot form. -/
def addSpot (point : Point) (st : AppState) : AppState :=
  openForm LogKind.spot
    { st with mode := Mode.none, isDrawing := false, routePoints := [point] }

open Classical in
/-- `App.#handleMapClick` (Log.js lines 438-462): ignore clicks when not
drawing; in route mode, close the loop when at least 2 points exist and
the click is within 0.05 km of `#routePoints[0]`, else append the point;
in spot mode place the spot. -/
noncomputable def handleMapClick (point : Point) (st : AppState) : AppState :=
  if st.isDrawing = false then st
  else match st.mode with
    | Mode.route =>
      if 2 ≤ st.routePoints.length ∧
          haversineDistance point st.routePoints.headI < 0.05 then
        closeLoop st
      else addRoutePoint point st
    | Mode.spot => addSpot point st
    | Mode.none => st

/-! ## Animation and deletion (Log.js lines 900-1141) -/

/-- `App.#stopRouteAnimation` (Log.js lines 1109-1123): cancel the
registered frame callback for the id (browser handles are nonzero, so the
JS truthiness test is presence in the map) and remove the overlay layer. -/
def stopRouteAnimation (logId : String) (st : AppState) : AppState :=
  let st1 :=
    match alookup st.activeAnimations logId with
    | some _ => { st with activeAnimations := aremove st.activeAnimations logId }
    | Option.none => st
  match alookup st1.animationLayers logId with
  | some _ => { st1 with animationLayers := aremove st1.animationLayers logId }
  | Option.none => st1

/-- The base-layer style set while an animation runs (Log.js line 1050). -/
def animBaseStyle : Style := { color := "#d1d5db", weight := 4, opacity := 0.4 }

/-- The default gray style restored on deselect/leave (Log.js line 1139). -/
def routeDefaultStyle : Style :=
  { color := "#9ca3af", weight := 3, opacity := 0.6 }

/-- `App.#animateRoute` (Log.js lines 1042-1104): stop any existing
animation for the id, then, when a base layer exists, set its style, add
an (initially empty) overlay polyline and register a fresh animation frame
for the id.  The per-frame progress/stripe updates happen in later
scheduler ticks and are outside this step-level model. -/
noncomputable def animateRoute (logId : String) (st : AppState) : AppState :=
  let st1 := stopRouteAnimation logId st
  match alookup st1.drawnLayers logId with
  | Option.none => st1
  | some layer =>
    let st2 := { st1 with
      drawnLayers := aset st1.drawnLayers logId (layer.setStyle animBaseStyle),
      animationLayers := aset st1.animationLayers logId [] }
    { st2 with
      activeAnimations := aset st2.activeAnimations logId st2.nextFrameId,
      nextFrameId := st2.nextFrameId + 1 }

/-- `App.#deselectRoute` (Log.js lines 1128-1141): clear the selection,
stop its animation and restore the default style (markers have no
`setStyle` and are left alone by the guard). -/
noncomputable def deselectRoute (st : AppState) : AppState :=
  match st.selectedRouteId with
  | Option.none => st
  | some logId =>
    let st1 := stopRouteAnimation logId { st with selectedRouteId := Option.none }
    match alookup st1.drawnLayers logId with
    | some layer =>
      { st1 with
        drawnLayers := aset st1.drawnLayers logId
          (layer.setStyle routeDefaultStyle) }
    | Option.none => st1

/-- `App.#handleLogHover` (Log.js lines 1003-1016): hovering the currently
selected entry returns immediately; otherwise a found route entry starts
its animation. -/
noncomputable def handleLogHover (logId : String) (st : AppState) : AppState :=
  if st.selectedRouteId = some logId then st
  else match st.logs.find? (fun l => l.id == logId) with
    | some (LogEntry.route _) => animateRoute logId st
    | _ => st

/-- `App.#cancelDelete` (Log.js lines 995-998): clear the pending id and
close the dialog (DOM-only). -/
def cancelDelete (st : AppState) : AppState :=
  { st with pendingDeleteId := Option.none }

open Classical in
/-- `App.#confirmDelete` (Log.js lines 956-990): a missing pending id
returns immediately; otherwise deselect if the deleted entry is selected,
stop its animation, remove its layer, filter it out of `#logs` and clear
the pending id (saving and DOM updates are external). -/
noncomputable def confirmDelete (st : AppState) : AppState :=
  match st.pendingDeleteId with
  | Option.none => st
  | some logId =>
    let st1 := if st.selectedRouteId = some logId then deselectRoute st else st
    let st2 := stopRouteAnimation logId st1
    let st3 :=
      match alookup st2.drawnLayers logId with
      | some _ => { st2 with drawnLayers := aremove st2.drawnLayers logId }
      | Option.none => st2
    { st3 with
      logs := st3.logs.filter (fun l => !(l.id == logId)),
      pendingDeleteId := Option.none }

/-- A concrete route-drawing session holding the two points `(0,0)` and
`(0,1)` with the matching polyline, as after two map clicks. -/
noncomputable def twoPointSession : AppState :=
  { initialState with
    mode := Mode.route, isDrawing := true,
    routePoints := [((0 : ℝ), (0 : ℝ)), ((0 : ℝ), (1 : ℝ))],
    currentPolyline := some [((0 : ℝ), (0 : ℝ)), ((0 : ℝ), (1 : ℝ))] }

/-! ## Supporting lemmas -/

/-- Product-to-sum identity used to bound the haversine intermediate. -/
lemma cos_sub_mul_cos_add (A B : ℝ) :
    Real.cos (A - B) * Real.cos (A + B) = Real.cos A ^ 2 - Real.sin B ^ 2 := by
  rw [Real.cos_sub, Real.cos_add]
  linear_combination (-(Real.sin B ^ 2)) * Real.sin_sq_add_cos_sq A +
    Real.cos A ^ 2 * Real.sin_sq_add_cos_sq B

/-- The haversine core `sin²((y-x)/2) + cos x · cos y · sin² v` lies in
`[0, 1]` for all real `x`, `y`, `v`. -/
lemma hav_core_bounds (x y v : ℝ) :
    0 ≤ Real.sin ((y - x) / 2) ^ 2 + Real.cos x * Real.cos y * Real.sin v ^ 2 ∧
    Real.sin ((y - x) / 2) ^ 2 + Real.cos x * Real.cos y * Real.sin v ^ 2 ≤ 1 := by
  have hc : Real.cos x * Real.cos y =
      Real.cos ((x + y) / 2) ^ 2 - Real.sin ((y - x) / 2) ^ 2 := by
    have h := cos_sub_mul_cos_add ((x + y) / 2) ((y - x) / 2)
    rw [show (x + y) / 2 - (y - x) / 2 = x by ring,
      show (x + y) / 2 + (y - x) / 2 = y by ring] at h
    exact h
  rw [hc]
  have hsv := Real.sin_sq_add_cos_sq v
  have hB := Real.sin_sq_add_cos_sq ((y - x) / 2)
  have hA := Real.sin_sq_add_cos_sq ((x + y) / 2)
  constructor
  · nlinarith [sq_nonneg (Real.sin ((y - x) / 2) * Real.cos v),
      sq_nonneg (Real.cos ((x + y) / 2) * Real.sin v)]
  · nlinarith [sq_nonneg (Real.cos ((y - x) / 2) * Real.cos v),
      sq_nonneg (Real.sin ((x + y) / 2) * Real.sin v)]

/-- The intermediate `a` of the source haversine lies in `[0, 1]` for every
pair of inputs, already without any clamping. -/
lemma havA_bounds (c1 c2 : Point) : 0 ≤ havA c1 c2 ∧ havA c1 c2 ≤ 1 := by
  have h := hav_core_bounds (c1.1 * Real.pi / 180) (c2.1 * Real.pi / 180)
    (((c2.2 - c1.2) * Real.pi / 180) / 2)
  simp only [havA]
  rw [show ((c2.1 - c1.1) * Real.pi / 180) / 2 =
    (c2.1 * Real.pi / 180 - c1.1 * Real.pi / 180) / 2 by ring]
  exact h

/-- `Math.atan2` is non-negative in the closed first quadrant. -/
lemma jsAtan2_nonneg {y x : ℝ} (hy : 0 ≤ y) (hx : 0 ≤ x) : 0 ≤ jsAtan2 y x := by
  unfold jsAtan2
  split_ifs with h1 h2 h3 h4
  · rw [← Real.arctan_zero]
    exact Real.arctan_strictMono.monotone (div_nonneg hy (le_of_lt h1))
  all_goals linarith [Real.pi_pos]

/-- The source haversine never returns a negative number. -/
lemma haversineDistance_nonneg (c1 c2 : Point) : 0 ≤ haversineDistance c1 c2 := by
  unfold haversineDistance
  have h := jsAtan2_nonneg (Real.sqrt_nonneg (havA c1 c2))
    (Real.sqrt_nonneg (1 - havA c1 c2))
  nlinarith

/-- Identical points are at haversine distance `0`. -/
lemma haversineDistance_self (c : Point) : haversineDistance c c = 0 := by
  have ha : havA c c = 0 := by
    simp [havA]
  simp [haversineDistance, ha, jsAtan2, Real.sqrt_one, Real.arctan_zero]

/-- Without clamping, the source haversine already equals the spec's
clamped form: the clamp is the identity on `[0, 1]`. -/
lemma haversine_eq_clamped (c1 c2 : Point) :
    haversineDistance c1 c2 = haversineDistanceClampedSpec c1 c2 := by
  obtain ⟨h0, h1⟩ := havA_bounds c1 c2
  unfold haversineDistance haversineDistanceClampedSpec
  rw [min_eq_right h1, max_eq_right h0]

/-- One `#addRoutePoint` call preserves "`#currentDistance` equals the
from-scratch path length of `#routePoints`". -/
lemma addRoutePoint_dist_inv (st : AppState) (p : Point)
    (h : st.currentDistance = calculateTotalDistance st.routePoints) :
    (addRoutePoint p st).currentDistance =
      calculateTotalDistance (addRoutePoint p st).routePoints := by
  unfold addRoutePoint
  by_cases h2 : 2 ≤ (st.routePoints ++ [p]).length
  · rw [if_pos h2]
  · rw [if_neg h2]
    have hnil : st.routePoints = [] := by
      cases hrp : st.routePoints with
      | nil => rfl
      | cons a t => exfalso; apply h2; simp [hrp]
    show st.currentDistance = calculateTotalDistance (st.routePoints ++ [p])
    rw [hnil] at h ⊢
    simp only [List.nil_append]
    rw [show calculateTotalDistance [p] = 0 from rfl]
    rw [show calculateTotalDistance ([] : List Point) = 0 from rfl] at h
    exact h

/-- The invariant holds after any sequence of `#addRoutePoint` calls. -/
lemma foldl_addRoutePoint_inv (ps : List Point) :
    ∀ st : AppState, st.currentDistance = calculateTotalDistance st.routePoints →
    (ps.foldl (fun s p => addRoutePoint p s) st).currentDistance =
      calculateTotalDistance
        (ps.foldl (fun s p => addRoutePoint p s) st).routePoints := by
  induction ps with
  | nil => intro st h; simpa using h
  | cons p t ih =>
    intro st h
    simp only [List.foldl_cons]
    exact ih _ (addRoutePoint_dist_inv st p h)

/-- When no record throws, the `.map` over the parsed array succeeds and
produces exactly the per-record results. -/
lemma mapDeserialize_no_throw (l : List StoredRec)
    (h : ∀ r ∈ l, r.throwsOnTypeAccess = false) :
    mapDeserialize l = Except.ok (l.map deserializeOk) := by
  induction l with
  | nil => rfl
  | cons r t ih =>
    have hr := h r (List.mem_cons_self r t)
    have ih' := ih (fun x hx => h x (List.mem_cons_of_mem r hx))
    cases r with
    | nullRec => simp [StoredRec.throwsOnTypeAccess] at hr
    | routeRec d => simp [mapDeserialize, deserializeRec, deserializeOk, ih']
    | spotRec d => simp [mapDeserialize, deserializeRec, deserializeOk, ih']
    | unknownType t0 => simp [mapDeserialize, deserializeRec, deserializeOk, ih']

/-- `#finishRoute` past its guard: with at least 2 points it stops drawing
and opens the route form. -/
lemma finishRoute_of_ge (st : AppState)
    (h : ¬(st.routePoints.length < 2)) :
    finishRoute st =
      openForm LogKind.route { st with isDrawing := false, mode := Mode.none } := by
  unfold finishRoute
  rw [if_neg h]

/-! ## Claim theorems -/

/-- Claim C1: for every drawing session started empty and any sequence of
`addRoutePoint` calls, the accumulated `#currentDistance` equals
`#calculateTotalDistance` recomputed from scratch over the accumulated
points, and the from-scratch sum is `0` for `0` or `1` points — the live
distance is never stale. -/
theorem live_distance_never_stale (ps : List Point) :
    (ps.foldl (fun s p => addRoutePoint p s) initialState).currentDistance =
      calculateTotalDistance
        ((ps.foldl (fun s p => addRoutePoint p s) initialState).routePoints) ∧
    calculateTotalDistance [] = 0 ∧
    ∀ p : Point, calculateTotalDistance [p] = 0 := by
  refine ⟨foldl_addRoutePoint_inv ps initialState rfl, rfl, fun p => rfl⟩

/-- Claim C5: deserializing the serialized form of a `Route` or a `Spot`
reproduces the id, the creation timestamp (at the millisecond precision the
ISO-8601 form carries), the coordinates and every variant field exactly —
whatever clock value `now` the reconstruction runs at. -/
theorem roundtrip_fromJSON_toJSON (now : ℕ) (r : Route) (s : Spot) :
    Route.fromJSON now (Route.toJSON r) = r ∧
    Spot.fromJSON now (Spot.toJSON s) = s := by
  constructor
  · cases r; rfl
  · cases s; rfl

/-- Claim C8: the haversine intermediate `a` lies in `[0, 1]` for every
pair of inputs (so the clamp the spec describes is the identity and the
source function coincides with the clamped form), the result is a
well-defined non-negative number for every pair (coincident and
near-antipodal included), and identical points give `0`. -/
theorem haversine_intermediate_in_unit_interval (c1 c2 : Point) :
    (0 ≤ havA c1 c2 ∧ havA c1 c2 ≤ 1) ∧
    haversineDistance c1 c2 = haversineDistanceClampedSpec c1 c2 ∧
    0 ≤ haversineDistance c1 c2 ∧
    haversineDistance c1 c1 = 0 :=
  ⟨havA_bounds c1 c2, haversine_eq_clamped c1 c2,
    haversineDistance_nonneg c1 c2, haversineDistance_self c1⟩

/-- Claim C9: hovering the currently selected entry changes nothing — the
handler returns before touching any animation, layer or selection state. -/
theorem hover_selected_entry_noop (st : AppState) (logId : String)
    (h : st.selectedRouteId = some logId) :
    handleLogHover logId st = st := by
  unfold handleLogHover
  rw [if_pos h]

/-- Witness for C9 at a concrete state whose selection is `"a"`. -/
theorem hover_selected_entry_noop_witness :
    ({ initialState with selectedRouteId := some "a" } : AppState).selectedRouteId
        = some "a" ∧
    handleLogHover "a" { initialState with selectedRouteId := some "a" } =
      { initialState with selectedRouteId := some "a" } :=
  ⟨rfl, hover_selected_entry_noop { initialState with selectedRouteId := some "a" }
    "a" rfl⟩

/-- Claim C10: cancelling a pending deletion leaves the entry collection
and every per-id side table (drawn layers, active animations, animation
overlays) unchanged, and confirming when no delete is pending is a complete
no-op. -/
theorem cancel_delete_preserves_entries (st : AppState) :
    (cancelDelete st).logs = st.logs ∧
    (cancelDelete st).drawnLayers = st.drawnLayers ∧
    (cancelDelete st).activeAnimations = st.activeAnimations ∧
    (cancelDelete st).animationLayers = st.animationLayers ∧
    (cancelDelete st).selectedRouteId = st.selectedRouteId ∧
    (st.pendingDeleteId = Option.none → confirmDelete st = st) := by
  refine ⟨rfl, rfl, rfl, rfl, rfl, fun h => ?_⟩
  unfold confirmDelete
  rw [h]

/-- Witness for C10 at the initial state, where no delete is pending. -/
theorem cancel_delete_preserves_entries_witness :
    initialState.pendingDeleteId = Option.none ∧
    confirmDelete initialState = initialState :=
  ⟨rfl, (cancel_delete_preserves_entries initialState).2.2.2.2.2 rfl⟩

/-- Counterexample to claim C7 as stated: the pace guard tests equality
with `0`, not positivity, so a `Route` whose stored distance is `-1` with
duration `5` gets pace `-5`, although the claim ("`0` whenever not both
positive") requires `0` there. -/
theorem pace_negative_distance_counterexample :
    ¬(0 < (mkRoute 0 [] (-1) "t" 5 "").distance) ∧
    (mkRoute 0 [] (-1) "t" 5 "").pace = -5 ∧
    ((-5 : ℝ) ≠ 0) := by
  refine ⟨by norm_num [mkRoute], ?_, by norm_num⟩
  rw [show (mkRoute 0 [] (-1) "t" 5 "").pace =
    if (-1 : ℝ) = 0 ∨ (5 : ℝ) = 0 then 0 else (5 : ℝ) / (-1) from rfl]
  norm_num

/-- Claim C7 amended: the pace is `0` exactly when the stored distance or
duration is `0` (so the division in the other branch is never by zero),
and equals duration divided by distance whenever both are nonzero — in
particular whenever both are positive. -/
theorem pace_zero_guard_amended (r : Route) :
    ((r.distance = 0 ∨ r.duration = 0) → r.pace = 0) ∧
    (r.distance ≠ 0 → r.duration ≠ 0 → r.pace = r.duration / r.distance) ∧
    (0 < r.distance → 0 < r.duration → r.pace = r.duration / r.distance) := by
  refine ⟨fun h => ?_, fun h1 h2 => ?_, fun h1 h2 => ?_⟩
  · simp [Route.pace, h]
  · simp [Route.pace, h1, h2]
  · simp [Route.pace, h1.ne', h2.ne']

/-- Witness for amended C7: distance `10`, duration `50` (the spec's own
example) yields pace `50 / 10`. -/
theorem pace_zero_guard_amended_witness :
    (mkRoute 0 [] 10 "t" 50 "").distance ≠ 0 ∧
    (mkRoute 0 [] 10 "t" 50 "").duration ≠ 0 ∧
    (mkRoute 0 [] 10 "t" 50 "").pace =
      (mkRoute 0 [] 10 "t" 50 "").duration / (mkRoute 0 [] 10 "t" 50 "").distance :=
  ⟨by norm_num [mkRoute], by norm_num [mkRoute],
    (pace_zero_guard_amended (mkRoute 0 [] 10 "t" 50 "")).2.1
      (by norm_num [mkRoute]) (by norm_num [mkRoute])⟩

/-- Counterexample to claim C3 as stated: calling `#setMode('route')`
while a route session is active (mode `route`, one point accumulated) is
not a no-op — it toggles the mode off and clears the accumulated points. -/
theorem set_mode_while_active_counterexample :
    (setMode Mode.route
      { initialState with
        mode := Mode.route, isDrawing := true,
        routePoints := [((0 : ℝ), (0 : ℝ))] }).mode ≠ Mode.route ∧
    (setMode Mode.route
      { initialState with
        mode := Mode.route, isDrawing := true,
        routePoints := [((0 : ℝ), (0 : ℝ))] }).routePoints ≠
      [((0 : ℝ), (0 : ℝ))] := by
  constructor
  · rw [show (setMode Mode.route
      { initialState with
        mode := Mode.route, isDrawing := true,
        routePoints := [((0 : ℝ), (0 : ℝ))] }).mode = Mode.none from rfl]
    decide
  · rw [show (setMode Mode.route
      { initialState with
        mode := Mode.route, isDrawing := true,
        routePoints := [((0 : ℝ), (0 : ℝ))] }).routePoints = [] from rfl]
    simp

/-- Claim C3 amended: `#finishRoute` with fewer than 2 points is a strict
no-op (the whole state is exactly as before).  `#setMode` while a session
is active is not state-preserving: re-selecting the active mode toggles
the session off and clears the drawing state, and selecting the other mode
switches the mode (keeping drawing on and retaining all other fields). -/
theorem invalid_transitions_amended (st : AppState) (m : Mode) :
    (st.routePoints.length < 2 → finishRoute st = st) ∧
    (st.mode = m →
      (setMode m st).mode = Mode.none ∧ (setMode m st).isDrawing = false ∧
      (setMode m st).routePoints = [] ∧ (setMode m st).currentDistance = 0) ∧
    (st.mode ≠ m → setMode m st = { st with mode := m, isDrawing := true }) := by
  refine ⟨fun h => ?_, fun h => ?_, fun h => ?_⟩
  · unfold finishRoute
    rw [if_pos h]
  · unfold setMode
    rw [if_pos h]
    exact ⟨rfl, rfl, rfl, rfl⟩
  · unfold setMode
    rw [if_neg h]

/-- Witness for amended C3: a one-point route session, where
`#finishRoute` leaves the state untouched and re-selecting route mode
toggles it off. -/
theorem invalid_transitions_amended_witness :
    ({ initialState with
        mode := Mode.route, isDrawing := true,
        routePoints := [((0 : ℝ), (0 : ℝ))] } : AppState).routePoints.length < 2 ∧
    finishRoute
      { initialState with
        mode := Mode.route, isDrawing := true,
        routePoints := [((0 : ℝ), (0 : ℝ))] } =
      { initialState with
        mode := Mode.route, isDrawing := true,
        routePoints := [((0 : ℝ), (0 : ℝ))] } ∧
    (setMode Mode.route
      { initialState with
        mode := Mode.route, isDrawing := true,
        routePoints := [((0 : ℝ), (0 : ℝ))] }).mode = Mode.none :=
  ⟨by decide,
    (invalid_transitions_amended
      { initialState with
        mode := Mode.route, isDrawing := true,
        routePoints := [((0 : ℝ), (0 : ℝ))] } Mode.route).1 (by decide),
    ((invalid_transitions_amended
      { initialState with
        mode := Mode.route, isDrawing := true,
        routePoints := [((0 : ℝ), (0 : ℝ))] } Mode.route).2.1 rfl).1⟩

/-- Counterexample to claim C4 as stated: two distinct entries created in
the same millisecond (`Date.now()` returns 5 for both) receive the same
id. -/
theorem same_millisecond_id_collision :
    mkSpot 5 ((0 : ℝ), (0 : ℝ)) "a" "" ≠ mkSpot 5 ((0 : ℝ), (0 : ℝ)) "b" "" ∧
    (mkSpot 5 ((0 : ℝ), (0 : ℝ)) "a" "").id =
      (mkSpot 5 ((0 : ℝ), (0 : ℝ)) "b" "").id := by
  constructor
  · intro h
    exact absurd (congrArg Spot.title h) (by decide)
  · rfl

/-- Claim C4 amended: an entry's id is the last-10-character slice of its
decimal creation-time milliseconds, fixed at construction; entries whose
creation times yield distinct slices have distinct ids, but entries created
in the same millisecond (or at timestamps agreeing on the slice) collide. -/
theorem id_is_timestamp_slice_amended (t1 t2 : ℕ) (p1 p2 : Point)
    (cs : List Point) (di du : ℝ) (ti1 ti2 de no : String) :
    (mkSpot t1 p1 ti1 de).id = idOfMillis t1 ∧
    (mkRoute t1 cs di ti1 du no).id = idOfMillis t1 ∧
    (idOfMillis t1 ≠ idOfMillis t2 →
      (mkSpot t1 p1 ti1 de).id ≠ (mkSpot t2 p2 ti2 de).id ∧
      (mkRoute t1 cs di ti1 du no).id ≠ (mkRoute t2 cs di ti2 du no).id ∧
      (mkSpot t1 p1 ti1 de).id ≠ (mkRoute t2 cs di ti2 du no).id) :=
  ⟨rfl, rfl, fun h => ⟨h, h, h⟩⟩

/-- Witness for amended C4: timestamps 1 and 2 slice to distinct ids. -/
theorem id_is_timestamp_slice_amended_witness :
    idOfMillis 1 ≠ idOfMillis 2 ∧
    (mkSpot 1 ((0 : ℝ), (0 : ℝ)) "t" "").id ≠
      (mkSpot 2 ((0 : ℝ), (0 : ℝ)) "t" "").id :=
  ⟨by decide,
    ((id_is_timestamp_slice_amended 1 2 ((0 : ℝ), (0 : ℝ)) ((0 : ℝ), (0 : ℝ))
      [] 0 0 "t" "t" "" "").2.2 (by decide)).1⟩

/-- Claim C2: a route-mode click with at least 2 accumulated points that
lands within 0.05 km (by the haversine distance) of the first point
appends a copy of the first point — not the clicked one — recomputes the
distance over the closed polygon, and immediately finishes the route
(drawing off, mode cleared, route form opened) with no explicit finish
call; the shortcut takes priority over a normal append. -/
theorem close_loop_shortcut (st : AppState) (point : Point)
    (hd : st.isDrawing = true) (hm : st.mode = Mode.route)
    (hlen : 2 ≤ st.routePoints.length)
    (hdist : haversineDistance point st.routePoints.headI < 0.05) :
    (handleMapClick point st).routePoints =
      st.routePoints ++ [st.routePoints.headI] ∧
    (handleMapClick point st).currentDistance =
      calculateTotalDistance (st.routePoints ++ [st.routePoints.headI]) ∧
    (handleMapClick point st).mode = Mode.none ∧
    (handleMapClick point st).isDrawing = false ∧
    (handleMapClick point st).formOpenFor = some LogKind.route := by
  have hmc : handleMapClick point st = closeLoop st := by
    unfold handleMapClick
    rw [hd]
    rw [if_neg (by decide : ¬(true = false))]
    rw [hm]
    show (if 2 ≤ st.routePoints.length ∧
        haversineDistance point st.routePoints.headI < 0.05 then closeLoop st
      else addRoutePoint point st) = closeLoop st
    rw [if_pos ⟨hlen, hdist⟩]
  have hcl : closeLoop st = openForm LogKind.route
      { st with
        routePoints := st.routePoints ++ [st.routePoints.headI],
        currentPolyline :=
          st.currentPolyline.map (fun _ => st.routePoints ++ [st.routePoints.headI]),
        currentDistance :=
          calculateTotalDistance (st.routePoints ++ [st.routePoints.headI]),
        isDrawing := false, mode := Mode.none } := by
    unfold closeLoop
    rw [finishRoute_of_ge _ (by
      simp only [List.length_append, List.length_cons, List.length_nil]
      omega)]
  rw [hmc, hcl]
  exact ⟨rfl, rfl, rfl, rfl, rfl⟩

/-- Witness for C2: in `twoPointSession` a click exactly at the first
point (distance 0 to the start) closes the loop and opens the route
form. -/
theorem close_loop_shortcut_witness :
    haversineDistance ((0 : ℝ), (0 : ℝ)) twoPointSession.routePoints.headI < 0.05 ∧
    2 ≤ twoPointSession.routePoints.length ∧
    (handleMapClick ((0 : ℝ), (0 : ℝ)) twoPointSession).routePoints =
      twoPointSession.routePoints ++ [twoPointSession.routePoints.headI] ∧
    (handleMapClick ((0 : ℝ), (0 : ℝ)) twoPointSession).formOpenFor =
      some LogKind.route := by
  have h5 : haversineDistance ((0 : ℝ), (0 : ℝ))
      twoPointSession.routePoints.headI < 0.05 := by
    rw [show twoPointSession.routePoints.headI = ((0 : ℝ), (0 : ℝ)) from rfl,
      haversineDistance_self]
    norm_num
  have hmain := close_loop_shortcut twoPointSession ((0 : ℝ), (0 : ℝ))
    rfl rfl (by decide) h5
  exact ⟨h5, by decide, hmain.1, hmain.2.2.2.2⟩

/-- Counterexample to claim C6 as stated: a persisted array holding one
valid spot record followed by a JSON `null` loads as the empty collection
— the whole load aborts and the valid record is lost, while the claim
(skip the bad record, keep the rest) demands the spot survive, as the
spec-modelled loader shows. -/
theorem null_record_aborts_load :
    loadLogs (Stored.records
      [StoredRec.spotRec ⟨"1", 0, ((0 : ℝ), (0 : ℝ)), "t", ""⟩,
       StoredRec.nullRec]) = [] ∧
    specLoadRecords
      [StoredRec.spotRec ⟨"1", 0, ((0 : ℝ), (0 : ℝ)), "t", ""⟩,
       StoredRec.nullRec] ≠ [] := by
  constructor
  · rfl
  · simp [specLoadRecords, deserializeRec]

/-- Claim C6 amended: records whose `type` is unrecognized are skipped
while every other record in the array still loads, and a malformed
top-level value (or absent key) yields the empty collection — but this
only holds when no record throws on the `obj.type` access: a `null` array
element aborts the whole load to the empty collection (see the
counterexample). -/
theorem load_skips_unrecognized_amended (l : List StoredRec)
    (h : ∀ r ∈ l, r.throwsOnTypeAccess = false) :
    loadLogs (Stored.records l) = specLoadRecords l ∧
    loadLogs Stored.malformedTopLevel = [] ∧
    loadLogs Stored.absent = [] := by
  refine ⟨?_, rfl, rfl⟩
  simp only [loadLogs]
  rw [mapDeserialize_no_throw l h]
  show (l.map deserializeOk).filterMap id = specLoadRecords l
  rw [List.filterMap_map]
  unfold specLoadRecords
  congr 1
  funext r
  cases r <;> rfl

/-- Witness for amended C6: the sample array (spot, unknown type, route)
has no throwing record and loads exactly as the spec-modelled loader. -/
theorem load_skips_unrecognized_amended_witness :
    (∀ r ∈ sampleStoredRecords, r.throwsOnTypeAccess = false) ∧
    loadLogs (Stored.records sampleStoredRecords) =
      specLoadRecords sampleStoredRecords := by
  have h : ∀ r ∈ sampleStoredRecords, r.throwsOnTypeAccess = false := by
    intro r hr
    fin_cases hr <;> rfl
  exact ⟨h, (load_skips_unrecognized_amended sampleStoredRecords h).1⟩

end ScoutLog
